import Mathlib

/-!
Verification development for the MCP Anywhere core: container health
checking, per-server run-configuration selection, the stdio gateway's
startup/fault handling, and the HTTP mount supervisor's lifecycle.

The Python implementation files (`container/manager.py`, `stdio_gateway.py`,
`core/mcp_manager.py`, `web/mcp_mount.py`) are not part of this snapshot;
the repository carries the design spec and a connection-stability document
quoting the relevant code fragments.  The definitions below are therefore
modelled from the spec (and, where it quotes code verbatim, from the
connection-stability document), as noted on each definition.
-/

namespace MCPAnywhere

/-! ## Container health checking (`ContainerManager._is_container_healthy`) -/

/-- One fresh observation of the docker runtime for a named container:
the container is found and running, found but not running, not found
(`GetByName -> NotFound` raises), or the runtime API raised a transient
error.  Each health-check attempt performs `containers.get` followed by
`container.reload()`, so attempt `i` reads `obs i`, a fresh status, never
a cached snapshot. -/
inductive DockerObs
  | running
  | notRunning
  | notFound
  | apiError
deriving DecidableEq, Repr

/-- The observable trace of one `_is_container_healthy` call: its boolean
result, how many attempts were performed, and the backoff waits (in
milliseconds) slept after each failed non-final attempt. -/
structure HealthTrace where
  result : Bool
  attempts : Nat
  waitsMs : List Nat
deriving DecidableEq, Repr

/-- Modelled from the spec: `ContainerManager.EnsureHealthy` /
`_is_container_healthy` (absent `container/manager.py`; fragment quoted in
the connection-stability document).  The loop body at attempt index
`attempt` (0-based) refreshes the container status (`obs attempt`); a
running observation returns true immediately; otherwise, if another
attempt remains, it sleeps the increasing backoff (0.5 s after attempt 1,
1 s after attempt 2, i.e. `500 * (attempt+1)` ms) and retries; after the
final attempt it returns false with no wait. -/
def ensureHealthyGo (obs : Nat → DockerObs) (maxRetries : Nat) (attempt : Nat) :
    HealthTrace :=
  if attempt < maxRetries then
    match obs attempt with
    | .running => ⟨true, attempt + 1, []⟩
    | _ =>
      if attempt + 1 < maxRetries then
        let rest := ensureHealthyGo obs maxRetries (attempt + 1)
        ⟨rest.result, rest.attempts, 500 * (attempt + 1) :: rest.waitsMs⟩
      else
        ⟨false, attempt + 1, []⟩
  else
    ⟨false, attempt, []⟩
termination_by maxRetries - attempt
decreasing_by omega

/-- Modelled from the spec: `_is_container_healthy(server, max_retries)`
starts its retry loop at attempt index 0. -/
def is_container_healthy (obs : Nat → DockerObs) (maxRetries : Nat) : HealthTrace :=
  ensureHealthyGo obs maxRetries 0

/-- The body of one attempt as the runtime client exposes it: `.ok b`
when `containers.get` + `reload` succeeded and the running check yielded
`b`, `.error` when the docker API raised. -/
def getAndReload (obs : Nat → DockerObs) (i : Nat) : Except String Bool :=
  match obs i with
  | .running => .ok true
  | .notRunning => .ok false
  | .notFound => .error "NotFound"
  | .apiError => .error "APIError"

/-- Modelled from the spec: the same retry loop in the exception monad.
The `try/except` inside the loop body is visible as the `.error _`
branch: a raised transient infrastructure fault is caught and treated as
a failed attempt, so no `.error` value ever escapes the loop. -/
def ensureHealthyExcGo (obs : Nat → DockerObs) (maxRetries : Nat) (attempt : Nat) :
    Except String Bool :=
  if attempt < maxRetries then
    match getAndReload obs attempt with
    | .ok true => .ok true
    | .ok false =>
      if attempt + 1 < maxRetries then ensureHealthyExcGo obs maxRetries (attempt + 1)
      else .ok false
    | .error _ =>
      if attempt + 1 < maxRetries then ensureHealthyExcGo obs maxRetries (attempt + 1)
      else .ok false
  else
    .ok false
termination_by maxRetries - attempt
decreasing_by all_goals omega

/-- `_is_container_healthy` as its caller sees it across the exception
boundary. -/
def is_container_healthy_exc (obs : Nat → DockerObs) (maxRetries : Nat) :
    Except String Bool :=
  ensureHealthyExcGo obs maxRetries 0

lemma ensureHealthyGo_success {obs : Nat → DockerObs} {maxRetries attempt : Nat}
    (h : attempt < maxRetries) (hr : obs attempt = .running) :
    ensureHealthyGo obs maxRetries attempt = ⟨true, attempt + 1, []⟩ := by
  rw [ensureHealthyGo]
  simp [h, hr]

lemma ensureHealthyGo_fail_step {obs : Nat → DockerObs} {maxRetries attempt : Nat}
    (h : attempt + 1 < maxRetries) (hf : obs attempt ≠ .running) :
    ensureHealthyGo obs maxRetries attempt =
      ⟨(ensureHealthyGo obs maxRetries (attempt + 1)).result,
       (ensureHealthyGo obs maxRetries (attempt + 1)).attempts,
       500 * (attempt + 1) :: (ensureHealthyGo obs maxRetries (attempt + 1)).waitsMs⟩ := by
  rw [ensureHealthyGo]
  have h' : attempt < maxRetries := by omega
  cases ho : obs attempt with
  | running => exact absurd ho hf
  | notRunning => simp [h, h']
  | notFound => simp [h, h']
  | apiError => simp [h, h']

lemma ensureHealthyGo_fail_last {obs : Nat → DockerObs} {maxRetries attempt : Nat}
    (h : attempt < maxRetries) (h2 : ¬ attempt + 1 < maxRetries)
    (hf : obs attempt ≠ .running) :
    ensureHealthyGo obs maxRetries attempt = ⟨false, attempt + 1, []⟩ := by
  rw [ensureHealthyGo]
  cases ho : obs attempt with
  | running => exact absurd ho hf
  | notRunning => simp [h, h2]
  | notFound => simp [h, h2]
  | apiError => simp [h, h2]

lemma ensureHealthyExcGo_fail_step {obs : Nat → DockerObs} {maxRetries attempt : Nat}
    (h : attempt + 1 < maxRetries) (hf : obs attempt ≠ .running) :
    ensureHealthyExcGo obs maxRetries attempt =
      ensureHealthyExcGo obs maxRetries (attempt + 1) := by
  rw [ensureHealthyExcGo]
  have h' : attempt < maxRetries := by omega
  cases ho : obs attempt with
  | running => exact absurd ho hf
  | notRunning => simp [getAndReload, h, h', ho]
  | notFound => simp [getAndReload, h, h', ho]
  | apiError => simp [getAndReload, h, h', ho]

lemma ensureHealthyExcGo_fail_last {obs : Nat → DockerObs} {maxRetries attempt : Nat}
    (h : attempt < maxRetries) (h2 : ¬ attempt + 1 < maxRetries)
    (hf : obs attempt ≠ .running) :
    ensureHealthyExcGo obs maxRetries attempt = .ok false := by
  rw [ensureHealthyExcGo]
  cases ho : obs attempt with
  | running => exact absurd ho hf
  | notRunning => simp [getAndReload, h, h2, ho]
  | notFound => simp [getAndReload, h, h2, ho]
  | apiError => simp [getAndReload, h, h2, ho]

end MCPAnywhere

namespace MCPAnywhere

/-- **C1.** For every sequence of at most `maxRetries - 1 = 2` transient
health-check failures followed by a healthy observation at attempt index
`k`, `_is_container_healthy` with `max_retries = 3` returns true, performs
exactly `k + 1 ≤ 3` attempts, judges each attempt from the freshly
reloaded status `obs i` (so a stale first snapshot with `obs 0 ≠ running`
does not prevent success), and the waits slept are `500·1 ms, …, 500·k ms`
— 0.5 s after the first failed attempt, 1 s after the second, and no wait
after the final attempt. -/
theorem ensureHealthy_transient_then_success (obs : Nat → DockerObs) (k : Nat)
    (hk : k < 3) (hfail : ∀ i, i < k → obs i ≠ .running) (hsucc : obs k = .running) :
    is_container_healthy obs 3 =
      ⟨true, k + 1, (List.range k).map (fun i => 500 * (i + 1))⟩ ∧ k + 1 ≤ 3 := by
  refine ⟨?_, by omega⟩
  unfold is_container_healthy
  interval_cases k
  · rw [ensureHealthyGo_success (by omega) hsucc]
    simp
  · rw [ensureHealthyGo_fail_step (by omega) (hfail 0 (by omega)),
      ensureHealthyGo_success (by omega) hsucc]
    simp [List.range_succ]
  · rw [ensureHealthyGo_fail_step (by omega) (hfail 0 (by omega)),
      ensureHealthyGo_fail_step (by omega) (hfail 1 (by omega)),
      ensureHealthyGo_success (by omega) hsucc]
    simp [List.range_succ]

/-- **C1 witness**: one transient failure (a raised docker API error on
attempt 1) followed by a healthy observation on attempt 2. -/
theorem ensureHealthy_transient_then_success_witness :
    is_container_healthy
        (fun i => if i = 0 then DockerObs.apiError else DockerObs.running) 3 =
      ⟨true, 2, [500]⟩ ∧ 2 ≤ 3 := by
  have h := ensureHealthy_transient_then_success
    (fun i => if i = 0 then DockerObs.apiError else DockerObs.running) 1
    (by omega) (by decide) (by decide)
  simpa using h

/-- **C2.** For every sequence of `maxRetries = 3` consecutive
health-check failures (any mix of not-running statuses and raised
transient infrastructure faults), `_is_container_healthy` returns false,
and across the exception boundary its caller receives `.ok false` — the
call never raises, and no transient infrastructure fault is surfaced past
it. -/
theorem ensureHealthy_all_fail_returns_false (obs : Nat → DockerObs)
    (hfail : ∀ i, i < 3 → obs i ≠ .running) :
    (is_container_healthy obs 3).result = false ∧
      is_container_healthy_exc obs 3 = .ok false := by
  constructor
  · unfold is_container_healthy
    rw [ensureHealthyGo_fail_step (by omega) (hfail 0 (by omega)),
      ensureHealthyGo_fail_step (by omega) (hfail 1 (by omega)),
      ensureHealthyGo_fail_last (by omega) (by omega) (hfail 2 (by omega))]
  · unfold is_container_healthy_exc
    rw [ensureHealthyExcGo_fail_step (by omega) (hfail 0 (by omega)),
      ensureHealthyExcGo_fail_step (by omega) (hfail 1 (by omega)),
      ensureHealthyExcGo_fail_last (by omega) (by omega) (hfail 2 (by omega))]

/-- **C2 witness**: three consecutive raised docker API errors. -/
theorem ensureHealthy_all_fail_returns_false_witness :
    (is_container_healthy (fun _ => DockerObs.apiError) 3).result = false ∧
      is_container_healthy_exc (fun _ => DockerObs.apiError) 3 = .ok false :=
  ensureHealthy_all_fail_returns_false (fun _ => DockerObs.apiError) (by decide)

/-! ## Run configurations (`ServerConfigBuilder` / `core/mcp_manager.py`) -/

/-- A value stored in a run-configuration dictionary. -/
inductive ConfigValue
  | str (s : String)
  | strList (l : List String)
  | num (n : Nat)
deriving DecidableEq, Repr

/-- A run configuration as built by `core/mcp_manager.py`: a Python dict,
embedded as an association list so that the keys themselves are data. -/
def ConfigDict : Type := List (String × ConfigValue)

instance : DecidableEq ConfigDict := by
  unfold ConfigDict
  infer_instance

/-- The `existing_config` dict literal, transcribed verbatim from the
connection-stability document's quotation of `core/mcp_manager.py` (the
file itself is absent); the docker arguments line is elided there, so the
args are a parameter. -/
def existing_config (args : List String) : ConfigDict :=
  [("command", .str "docker"),
   ("args", .strList args),
   ("transport", .str "stdio"),
   ("timeout", .num 300)]

/-- The `new_config` dict literal, transcribed verbatim from the
connection-stability document's quotation of `core/mcp_manager.py`. -/
def new_config (args : List String) : ConfigDict :=
  [("command", .str "docker"),
   ("args", .strList args),
   ("transport", .str "stdio"),
   ("timeout", .num 300)]

/-- Modelled from the spec: `ServerConfigBuilder.Build` returns the two
candidate configurations, either of which may be null. -/
structure ConfigOptions where
  existing : Option ConfigDict
  new : Option ConfigDict
deriving DecidableEq

/-- Modelled from the spec (selection fragment quoted in the
connection-stability document): if the existing container is healthy the
`existing` candidate is used; otherwise the `new` candidate when present;
otherwise the server is skipped (`none`). -/
def selectConfig (healthy : Bool) (opts : ConfigOptions) : Option ConfigDict :=
  if healthy then opts.existing
  else
    match opts.new with
    | some c => some c
    | none => none

/-- One configured server as the stdio gateway's startup loop sees it:
its name, the health-check verdict on its existing container, and its two
candidate configurations. -/
structure ServerEntry where
  name : String
  healthy : Bool
  opts : ConfigOptions
deriving DecidableEq

/-- Modelled from the spec: the stdio gateway's startup loop walks the
configured servers in order, applies the selection policy to each, adds
each usable server with its chosen configuration to the active set, and
records the name of each skipped server, continuing with the remaining
servers after a skip. -/
def gatewayStartup (servers : List ServerEntry) :
    List (String × ConfigDict) × List String :=
  match servers with
  | [] => ([], [])
  | s :: rest =>
    let acc := gatewayStartup rest
    match selectConfig s.healthy s.opts with
    | some c => ((s.name, c) :: acc.1, acc.2)
    | none => (acc.1, s.name :: acc.2)

lemma gatewayStartup_active_name_mem {servers : List ServerEntry}
    {n : String} {c : ConfigDict} (h : (n, c) ∈ (gatewayStartup servers).1) :
    n ∈ servers.map ServerEntry.name := by
  induction servers with
  | nil => simp [gatewayStartup] at h
  | cons s rest ih =>
    rw [gatewayStartup] at h
    cases hsel : selectConfig s.healthy s.opts with
    | none =>
      rw [hsel] at h
      exact List.mem_cons_of_mem _ (ih h)
    | some c' =>
      rw [hsel] at h
      rcases List.mem_cons.mp h with h1 | h2
      · have hn : n = s.name := congrArg Prod.fst h1
        rw [hn, List.map_cons]
        exact List.mem_cons_self _ _
      · exact List.mem_cons_of_mem _ (ih h2)

end MCPAnywhere

namespace MCPAnywhere

/-- **C3.** For every configured server in the stdio gateway's startup
list (server names distinct): if its existing container is healthy its
`existing` configuration joins the active set; otherwise its `new`
configuration joins the active set when present; otherwise the server is
skipped — its skip is recorded, it is excluded from the active set — and
every other server of the list is still processed by the same startup
pass rather than the gateway aborting. -/
theorem stdioGateway_selection_policy (servers : List ServerEntry)
    (s : ServerEntry) (hmem : s ∈ servers)
    (hnd : (servers.map ServerEntry.name).Nodup) :
    (∀ c, s.healthy = true → s.opts.existing = some c →
      (s.name, c) ∈ (gatewayStartup servers).1) ∧
    (∀ c, s.healthy = false → s.opts.new = some c →
      (s.name, c) ∈ (gatewayStartup servers).1) ∧
    (s.healthy = false → s.opts.new = none →
      s.name ∈ (gatewayStartup servers).2 ∧
        ∀ c, (s.name, c) ∉ (gatewayStartup servers).1) := by
  induction servers with
  | nil => cases hmem
  | cons t rest ih =>
    have hndr : (rest.map ServerEntry.name).Nodup := (List.nodup_cons.mp hnd).2
    have hnin : t.name ∉ rest.map ServerEntry.name := (List.nodup_cons.mp hnd).1
    rcases List.mem_cons.mp hmem with rfl | hmem'
    · refine ⟨?_, ?_, ?_⟩
      · intro c hh he
        rw [gatewayStartup]
        have hsel : selectConfig s.healthy s.opts = some c := by
          simp [selectConfig, hh, he]
        rw [hsel]
        exact List.mem_cons_self _ _
      · intro c hh hn
        rw [gatewayStartup]
        have hsel : selectConfig s.healthy s.opts = some c := by
          simp [selectConfig, hh, hn]
        rw [hsel]
        exact List.mem_cons_self _ _
      · intro hh hn
        have hsel : selectConfig s.healthy s.opts = none := by
          simp [selectConfig, hh, hn]
        constructor
        · rw [gatewayStartup, hsel]
          exact List.mem_cons_self _ _
        · intro c hc
          rw [gatewayStartup, hsel] at hc
          exact hnin (gatewayStartup_active_name_mem hc)
    · have ihs := ih hmem' hndr
      have hne : s.name ∈ rest.map ServerEntry.name :=
        List.mem_map_of_mem ServerEntry.name hmem'
      refine ⟨?_, ?_, ?_⟩
      · intro c hh he
        rw [gatewayStartup]
        cases hsel : selectConfig t.healthy t.opts with
        | some c' => exact List.mem_cons_of_mem _ (ihs.1 c hh he)
        | none => exact ihs.1 c hh he
      · intro c hh hn
        rw [gatewayStartup]
        cases hsel : selectConfig t.healthy t.opts with
        | some c' => exact List.mem_cons_of_mem _ (ihs.2.1 c hh hn)
        | none => exact ihs.2.1 c hh hn
      · intro hh hn
        have hsk := ihs.2.2 hh hn
        rw [gatewayStartup]
        cases hsel : selectConfig t.healthy t.opts with
        | some c' =>
          refine ⟨hsk.1, ?_⟩
          intro c hc
          rcases List.mem_cons.mp hc with h1 | h2
          · have : s.name = t.name := congrArg Prod.fst h1
            exact hnin (this ▸ hne)
          · exact hsk.2 c h2
        | none => exact ⟨List.mem_cons_of_mem _ hsk.1, hsk.2⟩

/-- **C3 witness**: the spec's worked example — server `A` with a healthy
existing container, `B` unhealthy with a `new` candidate, `C` unhealthy
with no `new` candidate: `A` runs via `existing`, `B` via `new`, `C` is
skipped while the others still start. -/
theorem stdioGateway_selection_policy_witness :
    (("B", new_config ["run"]) ∈
      (gatewayStartup
        [⟨"A", true, ⟨some (existing_config ["attach"]), some (new_config ["run"])⟩⟩,
         ⟨"B", false, ⟨some (existing_config ["attach"]), some (new_config ["run"])⟩⟩,
         ⟨"C", false, ⟨some (existing_config ["attach"]), none⟩⟩]).1) := by
  have h := stdioGateway_selection_policy
    [⟨"A", true, ⟨some (existing_config ["attach"]), some (new_config ["run"])⟩⟩,
     ⟨"B", false, ⟨some (existing_config ["attach"]), some (new_config ["run"])⟩⟩,
     ⟨"C", false, ⟨some (existing_config ["attach"]), none⟩⟩]
    ⟨"B", false, ⟨some (existing_config ["attach"]), some (new_config ["run"])⟩⟩
    (by simp) (by simp [ServerEntry.name])
  exact h.2.1 (new_config ["run"]) rfl rfl

/-- **C4 counterexample.** The claim says each candidate configuration
carries a per-call timeout field named `timeout_seconds`; in the
configuration dicts quoted from `core/mcp_manager.py` no key of that name
exists (the key is `timeout`). -/
theorem config_no_timeout_seconds_key :
    (existing_config ["run"]).lookup "timeout_seconds" = none ∧
      (new_config ["run"]).lookup "timeout_seconds" = none := by
  constructor <;> rfl

/-- **C4 (amended).** Every candidate run configuration, both the
`existing` and the `new` variant and for every argument vector, has
exactly the keys `command`, `args`, `transport`, `timeout`, with
`command = "docker"`, string-list `args`, `transport = "stdio"`, and the
explicit per-call timeout under the key `timeout` with value 300
(seconds). -/
theorem config_shape (args : List String) :
    ((existing_config args).map Prod.fst = ["command", "args", "transport", "timeout"] ∧
      (existing_config args).lookup "command" = some (.str "docker") ∧
      (existing_config args).lookup "args" = some (.strList args) ∧
      (existing_config args).lookup "transport" = some (.str "stdio") ∧
      (existing_config args).lookup "timeout" = some (.num 300)) ∧
    ((new_config args).map Prod.fst = ["command", "args", "transport", "timeout"] ∧
      (new_config args).lookup "command" = some (.str "docker") ∧
      (new_config args).lookup "args" = some (.strList args) ∧
      (new_config args).lookup "transport" = some (.str "stdio") ∧
      (new_config args).lookup "timeout" = some (.num 300)) := by
  refine ⟨⟨rfl, rfl, ?_, ?_, ?_⟩, ⟨rfl, rfl, ?_, ?_, ?_⟩⟩ <;> rfl

/-! ## STDIO gateway fault handling (`stdio_gateway.py`) -/

/-- The externally visible outcome of one stdio gateway run: the
diagnostic log path, the line appended there (if the append itself
succeeded), the process exit code, and every piece of diagnostic text the
run wrote to the standard-output protocol channel. -/
structure GatewayExit where
  logPath : String
  logLine : Option String
  exitCode : Nat
  stdoutDiagnostics : List String
deriving DecidableEq, Repr

/-- The diagnostic file name appended to the platform temp directory. -/
def errorLogFileName : String := "/mcp_anywhere_error.log"

/-- The diagnostic line format, transcribed from the handler quoted in
the connection-stability document:
`<timestamp> - STDIO Gateway Error: <FaultKind>: <message>` plus a
trailing newline. -/
def faultLogLine (timestamp kind msg : String) : String :=
  timestamp ++ " - STDIO Gateway Error: " ++ kind ++ ": " ++ msg ++ "\n"

/-- Modelled from the spec (handler quoted verbatim in the
connection-stability document): the stdio gateway's top-level exception
handler appends the fault line to `<tempdir>/mcp_anywhere_error.log`
inside its own `try/except Exception: pass` (`appendOk = false` models
that inner append raising, and the handler swallowing it), then calls
`sys.exit(1)`; it writes nothing to standard output. -/
def handleGatewayFault (tmpDir timestamp kind msg : String) (appendOk : Bool) :
    GatewayExit :=
  { logPath := tmpDir ++ errorLogFileName
    logLine := if appendOk then some (faultLogLine timestamp kind msg) else none
    exitCode := 1
    stdoutDiagnostics := [] }

/-- What the gateway's protocol loop did once running: finished cleanly
(client closed the session) or raised a local fault of some kind with
some message. -/
inductive LoopOutcome
  | clean
  | fault (kind msg : String)
deriving DecidableEq, Repr

/-- Modelled from the spec: one stdio gateway run.  Startup selects
configurations for every configured server; if the active set is empty
this is fatal (a configuration fault handled by the same top-level
handler); otherwise the protocol loop runs, a clean shutdown exits 0, and
any local fault goes through `handleGatewayFault`.  The standard-output
protocol channel never carries diagnostic text on any path. -/
def runStdioGateway (servers : List ServerEntry) (loop : LoopOutcome)
    (tmpDir timestamp : String) (appendOk : Bool) : GatewayExit :=
  if (gatewayStartup servers).1.isEmpty then
    handleGatewayFault tmpDir timestamp "RuntimeError"
      "No MCP servers could be configured" appendOk
  else
    match loop with
    | .clean => ⟨tmpDir ++ errorLogFileName, none, 0, []⟩
    | .fault kind msg => handleGatewayFault tmpDir timestamp kind msg appendOk

end MCPAnywhere

namespace MCPAnywhere

/-- **C5.** Whenever a local fault of kind `kind` with message `msg`
occurs inside the stdio gateway's loop (startup had produced a non-empty
active set) and the diagnostic append succeeds, the run appends to
`<tempdir>/mcp_anywhere_error.log` exactly the line
`<timestamp> - STDIO Gateway Error: <kind>: <msg>`, exits with code 1,
and writes no diagnostic text to the standard-output protocol channel. -/
theorem stdioGateway_fault_logged_and_exit1 (servers : List ServerEntry)
    (kind msg tmpDir timestamp : String)
    (hactive : (gatewayStartup servers).1.isEmpty = false) :
    runStdioGateway servers (.fault kind msg) tmpDir timestamp true =
      ⟨tmpDir ++ "/mcp_anywhere_error.log",
       some (timestamp ++ " - STDIO Gateway Error: " ++ kind ++ ": " ++ msg ++ "\n"),
       1, []⟩ := by
  rw [runStdioGateway, hactive]
  rfl

/-- **C5 witness**: one healthy server, a `ValueError` fault in the loop. -/
theorem stdioGateway_fault_logged_and_exit1_witness :
    runStdioGateway
        [⟨"A", true, ⟨some (existing_config ["attach"]), none⟩⟩]
        (.fault "ValueError" "boom") "/tmp" "2025-01-01 00:00:00" true =
      ⟨"/tmp/mcp_anywhere_error.log",
       some ("2025-01-01 00:00:00 - STDIO Gateway Error: ValueError: boom\n"),
       1, []⟩ := by
  exact stdioGateway_fault_logged_and_exit1
    [⟨"A", true, ⟨some (existing_config ["attach"]), none⟩⟩]
    "ValueError" "boom" "/tmp" "2025-01-01 00:00:00" (by rfl)

/-- **C10.** If appending the fault entry to the diagnostic log itself
raises, the failure is swallowed: the gateway still exits with code 1,
nothing reaches the log, and nothing is written to the standard-output
protocol channel — a logging failure never changes the exit path. -/
theorem stdioGateway_log_failure_swallowed (servers : List ServerEntry)
    (kind msg tmpDir timestamp : String)
    (hactive : (gatewayStartup servers).1.isEmpty = false) :
    runStdioGateway servers (.fault kind msg) tmpDir timestamp false =
      ⟨tmpDir ++ "/mcp_anywhere_error.log", none, 1, []⟩ := by
  rw [runStdioGateway, hactive]
  rfl

/-- **C10 witness**: the same fault with the diagnostic append failing. -/
theorem stdioGateway_log_failure_swallowed_witness :
    runStdioGateway
        [⟨"A", true, ⟨some (existing_config ["attach"]), none⟩⟩]
        (.fault "OSError" "disk full") "/tmp" "2025-01-01 00:00:00" false =
      ⟨"/tmp/mcp_anywhere_error.log", none, 1, []⟩ := by
  exact stdioGateway_log_failure_swallowed
    [⟨"A", true, ⟨some (existing_config ["attach"]), none⟩⟩]
    "OSError" "disk full" "/tmp" "2025-01-01 00:00:00" (by rfl)

lemma gatewayStartup_all_skip {servers : List ServerEntry}
    (h : ∀ s ∈ servers, selectConfig s.healthy s.opts = none) :
    (gatewayStartup servers).1 = [] := by
  induction servers with
  | nil => rfl
  | cons s rest ih =>
    rw [gatewayStartup, h s (List.mem_cons_self _ _)]
    exact ih fun t ht => h t (List.mem_cons_of_mem _ ht)

/-- **C6.** If every configured server is unusable at startup (the
selection policy yields no configuration for any of them), the stdio
gateway treats this as fatal: whatever the loop outcome parameter, the
temp directory, the timestamp or the append behaviour, it exits with a
non-zero status (code 1) and writes nothing to the standard-output
protocol channel. -/
theorem stdioGateway_all_unusable_fatal (servers : List ServerEntry)
    (loop : LoopOutcome) (tmpDir timestamp : String) (appendOk : Bool)
    (h : ∀ s ∈ servers, selectConfig s.healthy s.opts = none) :
    (runStdioGateway servers loop tmpDir timestamp appendOk).exitCode ≠ 0 ∧
      (runStdioGateway servers loop tmpDir timestamp appendOk).stdoutDiagnostics = [] := by
  have hempty : (gatewayStartup servers).1.isEmpty = true := by
    rw [gatewayStartup_all_skip h]
    rfl
  unfold runStdioGateway
  rw [hempty]
  simp [handleGatewayFault]

/-- **C6 witness**: one unhealthy server with no `new` candidate. -/
theorem stdioGateway_all_unusable_fatal_witness :
    (runStdioGateway [⟨"C", false, ⟨some (existing_config ["attach"]), none⟩⟩]
        .clean "/tmp" "2025-01-01 00:00:00" true).exitCode ≠ 0 ∧
      (runStdioGateway [⟨"C", false, ⟨some (existing_config ["attach"]), none⟩⟩]
        .clean "/tmp" "2025-01-01 00:00:00" true).stdoutDiagnostics = [] := by
  exact stdioGateway_all_unusable_fatal
    [⟨"C", false, ⟨some (existing_config ["attach"]), none⟩⟩]
    .clean "/tmp" "2025-01-01 00:00:00" true
    (by intro s hs; simp at hs; rw [hs]; rfl)

end MCPAnywhere

namespace MCPAnywhere

/-! ## HTTP mount supervisor (`web/mcp_mount.py`) -/

/-- The lifecycle state of the mounted sub-application's lifespan:
`failed` carries the stored startup error so later requests can report
it. -/
inductive LifespanState
  | notStarted
  | starting
  | ready
  | failed (msg : String)
  | shuttingDown
  | stopped
deriving DecidableEq, Repr

/-- The start-once latch guarding `_ensure_lifespan_started`: whether a
startup sequence has been launched, and how many underlying startup
sequences have ever been launched. -/
structure StartLatch where
  started : Bool
  runs : Nat
deriving DecidableEq, Repr

/-- Modelled from the spec: the atomic check-and-set a caller performs on
entering `_ensure_lifespan_started` under the cooperative scheduler
(there is no suspension point between the check and the set).  Returns
the new latch and whether this caller launched the startup sequence. -/
def enterEnsureStarted (st : StartLatch) : StartLatch × Bool :=
  if st.started then (st, false)
  else (⟨true, st.runs + 1⟩, true)

/-- `n` concurrent callers reach the latch in some serial order (the
scheduler interleaving); each performs the atomic check-and-set in turn.
Returns the final latch and, per caller, whether it won. -/
def enterAll (st : StartLatch) : Nat → StartLatch × List Bool
  | 0 => (st, [])
  | n + 1 =>
    let first := enterEnsureStarted st
    let rest := enterAll first.1 n
    (rest.1, first.2 :: rest.2)

/-- The final state the one startup sequence produced, observed by every
caller through the shared completion signal. -/
inductive LifespanOutcome
  | ready
  | failed (msg : String)
deriving DecidableEq, Repr

/-- Modelled from the spec: `n` concurrent `EnsureStarted` callers, none
having completed yet, all await the one shared completion signal; once
the (single) startup sequence finishes with outcome `o`, every caller
wakes and reads that same outcome. -/
def ensureStartedAll (n : Nat) (o : LifespanOutcome) :
    StartLatch × List (Bool × LifespanOutcome) :=
  let entered := enterAll ⟨false, 0⟩ n
  (entered.1, entered.2.map (fun w => (w, o)))

lemma enterAll_already_started (runs : Nat) (n : Nat) :
    enterAll ⟨true, runs⟩ n = (⟨true, runs⟩, List.replicate n false) := by
  induction n with
  | zero => rfl
  | succ n ih =>
    rw [enterAll]
    simp [enterEnsureStarted, ih, List.replicate_succ]

lemma enterAll_fresh (n : Nat) :
    enterAll ⟨false, 0⟩ (n + 1) =
      (⟨true, 1⟩, true :: List.replicate n false) := by
  rw [enterAll]
  simp [enterEnsureStarted, enterAll_already_started]

/-- **C7.** For every `n ≥ 2` concurrent `EnsureStarted` invocations
issued before any completes, and every final outcome `o` of the startup:
exactly one underlying startup sequence is launched (`runs = 1`), exactly
one caller wins the latch, and all `n` callers observe the identical
final state `o` (`Ready` or `Failed`). -/
theorem ensureStarted_single_winner (n : Nat) (o : LifespanOutcome) (hn : 2 ≤ n) :
    (ensureStartedAll n o).1.runs = 1 ∧
      ((ensureStartedAll n o).2.filter (fun r => r.1)).length = 1 ∧
      (ensureStartedAll n o).2.length = n ∧
      ∀ r ∈ (ensureStartedAll n o).2, r.2 = o := by
  obtain ⟨m, rfl⟩ : ∃ m, n = m + 1 := ⟨n - 1, by omega⟩
  unfold ensureStartedAll
  rw [enterAll_fresh]
  refine ⟨rfl, ?_, by simp, ?_⟩
  · simp [List.filter_map, List.filter_replicate]
  · intro r hr
    simp at hr
    rcases hr with h | ⟨_, h⟩ <;> rw [h]

/-- **C7 witness**: three concurrent callers, startup succeeding. -/
theorem ensureStarted_single_winner_witness :
    (ensureStartedAll 3 .ready).1.runs = 1 ∧
      ((ensureStartedAll 3 .ready).2.filter (fun r => r.1)).length = 1 ∧
      (ensureStartedAll 3 .ready).2.length = 3 ∧
      ∀ r ∈ (ensureStartedAll 3 .ready).2, r.2 = .ready :=
  ensureStarted_single_winner 3 .ready (by omega)

end MCPAnywhere

namespace MCPAnywhere

/-- How the sub-application's lifespan startup behaves on one launch:
signals success at second `t`, signals a startup error at second `t`, or
never signals. -/
inductive StartupBehavior
  | ok (t : Nat)
  | err (t : Nat) (msg : String)
  | hangs
deriving DecidableEq, Repr

/-- The supervisor waits up to this many seconds for the startup signal. -/
def startupTimeoutSeconds : Nat := 30

/-- The supervisor waits up to this many seconds for a clean lifespan
exit on shutdown. -/
def shutdownTimeoutSeconds : Nat := 10

/-- Whether the lifespan signals completion (success or error) within `T`
seconds. -/
def signalsWithin : StartupBehavior → Nat → Bool
  | .ok t, bound => t ≤ bound
  | .err t _, bound => t ≤ bound
  | .hangs, _ => false

/-- The stored error message after a startup that never signalled within
the 30-second wait. -/
def startupTimeoutMsg : String := "MCP server startup timed out after 30 seconds"

/-- Modelled from the spec: one `_ensure_lifespan_started` call in state
`st` while the launched startup behaves as `b`.  `ready` returns at once;
`failed` is terminal — the stored error is re-raised and startup is never
retried; otherwise the caller awaits the completion signal for at most 30
seconds: a success signal in time yields `ready`, an error signal in time
stores and raises that error, and no signal within 30 seconds stores and
raises the startup-timeout fault. -/
def ensureLifespanStarted (st : LifespanState) (b : StartupBehavior) :
    LifespanState × Except String Unit :=
  match st with
  | .ready => (.ready, .ok ())
  | .failed m => (.failed m, .error m)
  | _ =>
    match b with
    | .ok t =>
      if t ≤ startupTimeoutSeconds then (.ready, .ok ())
      else (.failed startupTimeoutMsg, .error startupTimeoutMsg)
    | .err t m =>
      if t ≤ startupTimeoutSeconds then (.failed m, .error m)
      else (.failed startupTimeoutMsg, .error startupTimeoutMsg)
    | .hangs => (.failed startupTimeoutMsg, .error startupTimeoutMsg)

/-- What the supervisor's request handler does with one accepted
request. -/
inductive MountResponse
  | forwarded
  | errorResponse (status : Nat) (body : String)
  | closedWithoutResponse
deriving DecidableEq, Repr

/-- The structured JSON error body sent when initialization failed. -/
def mountErrorBody (msg : String) : String :=
  "\x7b\"error\": \"MCP mount initialization failed\", \"detail\": \"" ++ msg ++ "\"\x7d"

/-- Modelled from the spec: the supervisor's `__call__` on one accepted
HTTP request: it first runs `_ensure_lifespan_started`; on success it
forwards the request to the sub-application; on failure it still sends a
well-formed 500 response with the structured error body and completes the
connection — it never closes the socket without a response. -/
def handleMountRequest (st : LifespanState) (b : StartupBehavior) :
    LifespanState × MountResponse :=
  let step := ensureLifespanStarted st b
  match step.2 with
  | .ok _ => (step.1, .forwarded)
  | .error m => (step.1, .errorResponse 500 (mountErrorBody m))

/-- **C8.** If the sub-application's startup does not signal completion
within 30 seconds, the supervisor transitions to `Failed`; that state is
terminal for the process's lifetime — no later call relaunches startup,
whatever a relaunched lifespan would have done — and every subsequently
accepted request receives a well-formed 500 response carrying the
structured error body (never a closed connection without a response). -/
theorem mount_startup_timeout_failed_terminal (b : StartupBehavior)
    (h : signalsWithin b startupTimeoutSeconds = false) :
    (ensureLifespanStarted .notStarted b).1 = .failed startupTimeoutMsg ∧
      (∀ b', ensureLifespanStarted (.failed startupTimeoutMsg) b' =
        (.failed startupTimeoutMsg, .error startupTimeoutMsg)) ∧
      (∀ b', handleMountRequest (.failed startupTimeoutMsg) b' =
        (.failed startupTimeoutMsg,
          .errorResponse 500 (mountErrorBody startupTimeoutMsg))) := by
  refine ⟨?_, fun b' => rfl, fun b' => rfl⟩
  cases b with
  | ok t =>
    have hgt : ¬ t ≤ startupTimeoutSeconds := by
      simp [signalsWithin] at h
      omega
    simp [ensureLifespanStarted, hgt]
  | err t m =>
    have hgt : ¬ t ≤ startupTimeoutSeconds := by
      simp [signalsWithin] at h
      omega
    simp [ensureLifespanStarted, hgt]
  | hangs => rfl

/-- **C8 witness**: a lifespan that never signals. -/
theorem mount_startup_timeout_failed_terminal_witness :
    (ensureLifespanStarted .notStarted .hangs).1 = .failed startupTimeoutMsg ∧
      (∀ b', ensureLifespanStarted (.failed startupTimeoutMsg) b' =
        (.failed startupTimeoutMsg, .error startupTimeoutMsg)) ∧
      (∀ b', handleMountRequest (.failed startupTimeoutMsg) b' =
        (.failed startupTimeoutMsg,
          .errorResponse 500 (mountErrorBody startupTimeoutMsg))) :=
  mount_startup_timeout_failed_terminal .hangs rfl

/-- The observable trace of one `shutdown()` call. -/
structure ShutdownTrace where
  waitedSeconds : Nat
  cancelledTask : Bool
  surfacedError : Option String
  finalState : LifespanState
deriving DecidableEq, Repr

/-- Modelled from the spec: `shutdown()` signals the lifespan task to
stop and awaits it for at most 10 seconds; `taskExit = some t` means the
task exits cleanly `t` seconds after the stop signal, `none` that it
never exits on its own.  On a clean exit within the bound no cancellation
happens; otherwise the wait times out at 10 seconds, the task is forcibly
cancelled, and the resulting cancellation (taking `cancelDelay` further
seconds, the runtime's small cancellation-delivery bound ε) is caught and
treated as expected, never surfaced. -/
def shutdownMount (taskExit : Option Nat) (cancelDelay : Nat) : ShutdownTrace :=
  match taskExit with
  | some t =>
    if t ≤ shutdownTimeoutSeconds then ⟨t, false, none, .stopped⟩
    else ⟨shutdownTimeoutSeconds + cancelDelay, true, none, .stopped⟩
  | none => ⟨shutdownTimeoutSeconds + cancelDelay, true, none, .stopped⟩

/-- **C9.** For every lifespan-task behaviour, `shutdown()` waits at most
10 seconds for a clean exit; when the task exits within 10 seconds it is
not cancelled, and otherwise it is forcibly cancelled; the resulting
cancellation is never surfaced as an error; and the call always returns
within `shutdown_timeout + ε` (ε being the runtime's
cancellation-delivery bound), regardless of the sub-application's
behaviour. -/
theorem mount_shutdown_bounded (taskExit : Option Nat) (cancelDelay : Nat) :
    (shutdownMount taskExit cancelDelay).waitedSeconds ≤
        shutdownTimeoutSeconds + cancelDelay ∧
      (shutdownMount taskExit cancelDelay).surfacedError = none ∧
      (∀ t, taskExit = some t → t ≤ shutdownTimeoutSeconds →
        (shutdownMount taskExit cancelDelay).cancelledTask = false ∧
          (shutdownMount taskExit cancelDelay).waitedSeconds = t) ∧
      ((taskExit = none ∨ ∃ t, taskExit = some t ∧ shutdownTimeoutSeconds < t) →
        (shutdownMount taskExit cancelDelay).cancelledTask = true) := by
  cases taskExit with
  | none =>
    refine ⟨le_refl _, rfl, ?_, fun _ => rfl⟩
    intro t ht
    exact Option.noConfusion ht
  | some t =>
    by_cases hle : t ≤ shutdownTimeoutSeconds
    · refine ⟨?_, ?_, ?_, ?_⟩
      · simp [shutdownMount, hle]
        omega
      · simp [shutdownMount, hle]
      · intro t' ht' _
        injection ht' with h2
        subst h2
        simp [shutdownMount, hle]
      · rintro (h | ⟨t', ht', hgt⟩)
        · exact Option.noConfusion h
        · injection ht' with h2
          exfalso
          omega
    · refine ⟨?_, ?_, ?_, ?_⟩
      · simp [shutdownMount, hle]
      · simp [shutdownMount, hle]
      · intro t' ht' hle'
        injection ht' with h2
        subst h2
        exact absurd hle' hle
      · intro _
        simp [shutdownMount, hle]

/-- **C9 witness**: a lifespan task that ignores the stop signal and the
cancellation delivered within ε = 1 s. -/
theorem mount_shutdown_bounded_witness :
    (shutdownMount none 1).waitedSeconds ≤ shutdownTimeoutSeconds + 1 ∧
      (shutdownMount none 1).surfacedError = none ∧
      (∀ t, (none : Option Nat) = some t → t ≤ shutdownTimeoutSeconds →
        (shutdownMount none 1).cancelledTask = false ∧
          (shutdownMount none 1).waitedSeconds = t) ∧
      (((none : Option Nat) = none ∨
          ∃ t, (none : Option Nat) = some t ∧ shutdownTimeoutSeconds < t) →
        (shutdownMount none 1).cancelledTask = true) :=
  mount_shutdown_bounded none 1

end MCPAnywhere
